import Mathlib

/-!
Shallow embedding of `crates/turbo-tasks-fetch/src/lib.rs`.

Modelling conventions:
* `Vc<T>` memoization cells are erased to plain values of type `T`; the claims
  under study are about the values stored in the cells, not the cell machinery.
* Rust `Result<T, E>` becomes `Except E T`; byte sequences (`Vec<u8>`) become
  `List Nat` with each byte below 256 where it matters.
* The external transport (`reqwest`) is represented by its observable outcome
  for the single GET request that `fetch` issues: either a send-time error or a
  response carrying a status code and a (possibly failing) body read.
  `reqwest::Error`'s observable surface used by the source is
  `is_connect()`, `is_timeout()`, `status()` and its `Display` text.
* `http::StatusCode` (used by reqwest) accepts any code in 100..=999, and
  `Response::error_for_status` errors exactly when the code is in 400..=599
  (`is_client_error() || is_server_error()`).
-/

namespace reqwest

/-- Observable surface of a `reqwest::Error` value, as consumed by the source:
`is_connect()`, `is_timeout()`, `status()` (as `u16`), and the `Display`
rendering (`error.to_string()`). -/
structure Error where
  is_connect : Bool
  is_timeout : Bool
  status : Option Nat
  display : String
  deriving DecidableEq, Repr

/-- Observable outcome of an HTTP response obtained from the transport:
the numeric status code (`status().as_u16()`, in 100..=999 for any value
`http::StatusCode` can represent) and the outcome of reading the full body
(`bytes().await`), which may itself fail with a transport error. -/
structure Response where
  status : Nat
  bytes : Except Error (List Nat)
  deriving Repr

/-- Display text of the error produced by `error_for_status`; abstracts
reqwest's internal rendering ("HTTP status client/server error (...) ...").
No claim under study depends on this exact text. -/
def statusErrorText (code : Nat) : String :=
  (if code < 500 then "HTTP status client error (" else "HTTP status server error (")
    ++ toString code ++ ")"

/-- Model of `reqwest::Response::error_for_status`:
errors exactly when the status is a client error (400..=499) or a server
error (500..=599); the produced `reqwest::Error` has `status() = Some(code)`,
`is_connect() = false` and `is_timeout() = false`. -/
def error_for_status (r : Response) : Except Error Response :=
  if 400 ≤ r.status ∧ r.status ≤ 599 then
    .error { is_connect := false, is_timeout := false,
             status := some r.status, display := statusErrorText r.status }
  else
    .ok r

end reqwest

/-- `pub struct HttpResponseBody(pub Vec<u8>);` -/
structure HttpResponseBody where
  bytes : List Nat
  deriving DecidableEq, Repr

/-- `pub struct HttpResponse { pub status: u16, pub body: Vc<HttpResponseBody> }` -/
structure HttpResponse where
  status : Nat
  body : HttpResponseBody
  deriving DecidableEq, Repr

/-- `pub enum FetchErrorKind { Connect, Timeout, Status(u16), Other }` -/
inductive FetchErrorKind where
  | Connect
  | Timeout
  | Status (code : Nat)
  | Other
  deriving DecidableEq, Repr

/-- `pub struct FetchError { url, kind, detail }` (each field a `Vc` cell). -/
structure FetchError where
  url : String
  kind : FetchErrorKind
  detail : String
  deriving DecidableEq, Repr

/-- `FetchResult(Result<Vc<HttpResponse>, Vc<FetchError>>)` -/
abbrev FetchResult := Except FetchError HttpResponse

/-- `FetchError::from_reqwest_error`: classification of a raw reqwest error.
First match wins: `is_connect()`, then `is_timeout()`, then a carried status,
else `Other`; `detail` is the error's `Display` text, `url` is supplied by the
caller. -/
def FetchError.from_reqwest_error (error : reqwest.Error) (url : String) : FetchError :=
  let kind :=
    if error.is_connect then FetchErrorKind.Connect
    else if error.is_timeout then FetchErrorKind.Timeout
    else
      match error.status with
      | some status => FetchErrorKind.Status status
      | none => FetchErrorKind.Other
  { detail := error.display, url := url, kind := kind }

/-- The `fetch` task. `send` is the observable outcome of
`builder.send().await` for the GET request built from `url` and `user_agent`
(the header attached from `user_agent` does not change the shape of the
control flow, only which request the transport answers). The outer `Except`
is the `anyhow::Result` return of the Rust function: a raw error escaping
through `?`. Mirrors:
`let response = builder.send().await.and_then(|r| r.error_for_status());`
then on `Ok` reads the body with `response.bytes().await?` (note the raw `?`),
and on `Err` classifies via `FetchError::from_reqwest_error`. -/
def fetch (url : String) (user_agent : Option String)
    (send : Except reqwest.Error reqwest.Response) :
    Except reqwest.Error FetchResult :=
  let _ := user_agent
  let response := Except.bind send reqwest.error_for_status
  match response with
  | .ok response =>
      match response.bytes with
      | .ok body => .ok (.ok { status := response.status, body := { bytes := body } })
      | .error e => .error e
  | .error err => .ok (.error (FetchError.from_reqwest_error err url))

/-! UTF-8 body decoding (`HttpResponseBody::to_string`). -/

/-- A UTF-8 continuation byte: `0x80..=0xBF`. -/
def utf8IsCont (b : Nat) : Bool :=
  decide (0x80 ≤ b) && decide (b ≤ 0xBF)

/-- Allowed second byte of a 3-byte sequence, given the first byte
(per Rust std `run_utf8_validation`): `(0xE0, 0xA0..=0xBF)`,
`(0xE1..=0xEC | 0xEE..=0xEF, 0x80..=0xBF)`, `(0xED, 0x80..=0x9F)`. -/
def utf8Valid3 (b1 b2 : Nat) : Bool :=
  if b1 == 0xE0 then decide (0xA0 ≤ b2) && decide (b2 ≤ 0xBF)
  else if b1 == 0xED then decide (0x80 ≤ b2) && decide (b2 ≤ 0x9F)
  else utf8IsCont b2

/-- Allowed second byte of a 4-byte sequence, given the first byte:
`(0xF0, 0x90..=0xBF)`, `(0xF1..=0xF3, 0x80..=0xBF)`, `(0xF4, 0x80..=0x8F)`. -/
def utf8Valid4 (b1 b2 : Nat) : Bool :=
  if b1 == 0xF0 then decide (0x90 ≤ b2) && decide (b2 ≤ 0xBF)
  else if b1 == 0xF4 then decide (0x80 ≤ b2) && decide (b2 ≤ 0x8F)
  else utf8IsCont b2

/-- UTF-8 validity of a byte sequence, following Rust std's
`run_utf8_validation` (the algorithm behind `std::str::from_utf8`):
ASCII bytes stand alone; first bytes `0xC2..=0xDF`, `0xE0..=0xEF`,
`0xF0..=0xF4` start 2-, 3-, 4-byte sequences with the range checks above;
`0x80..=0xC1` and `0xF5..` are never valid first bytes. -/
def validUtf8 : List Nat → Bool
  | [] => true
  | b :: rest =>
    if b < 0x80 then validUtf8 rest
    else if b < 0xC2 then false
    else if b ≤ 0xDF then
      match rest with
      | b2 :: rest2 => utf8IsCont b2 && validUtf8 rest2
      | [] => false
    else if b ≤ 0xEF then
      match rest with
      | b2 :: b3 :: rest3 => utf8Valid3 b b2 && utf8IsCont b3 && validUtf8 rest3
      | _ => false
    else if b ≤ 0xF4 then
      match rest with
      | b2 :: b3 :: b4 :: rest4 =>
          utf8Valid4 b b2 && utf8IsCont b3 && utf8IsCont b4 && validUtf8 rest4
      | _ => false
    else false

/-- The string view of a valid-UTF-8 byte sequence. Rust's `&str` is a byte
slice invariantly holding valid UTF-8; `str::as_bytes` (re-encoding) returns
exactly those bytes. -/
structure Utf8View where
  bytes : List Nat
  valid : validUtf8 bytes = true
  deriving DecidableEq, Repr

/-- `str::as_bytes` / re-encoding the string view as UTF-8 bytes. -/
def Utf8View.as_bytes (s : Utf8View) : List Nat := s.bytes

/-- `std::str::Utf8Error` — the decode failure raised by `from_utf8`,
a type separate from `FetchErrorKind`. -/
inductive Utf8Error where
  | invalid
  deriving DecidableEq, Repr

/-- `HttpResponseBody::to_string`: `std::str::from_utf8(&this.0)?` — succeeds
with the (zero-copy) string view when the bytes are valid UTF-8, otherwise
fails with a `Utf8Error` propagated through `?`. -/
def HttpResponseBody.to_string (b : HttpResponseBody) : Except Utf8Error Utf8View :=
  if h : validUtf8 b.bytes = true then .ok ⟨b.bytes, h⟩ else .error .invalid

/-! Diagnostics (`FetchIssue` and the `Issue` trait impl). -/

/-- `turbopack_core::issue::IssueSeverity` (external collaborator; only its
identity matters to this core). -/
inductive IssueSeverity where
  | Bug
  | Fatal
  | Error
  | Warning
  | Hint
  | Note
  | Suggestions
  | Info
  deriving DecidableEq, Repr

/-- `turbo_tasks_fs::FileSystemPath` (external collaborator; opaque source
location context). -/
structure FileSystemPath where
  path : String
  deriving DecidableEq, Repr

/-- `turbopack_core::issue::StyledString` — only the `Text` constructor is
used by this crate. -/
inductive StyledString where
  | Text (s : String)
  deriving DecidableEq, Repr

/-- `pub struct FetchIssue { issue_context, severity, url, kind, detail }` -/
structure FetchIssue where
  issue_context : FileSystemPath
  severity : IssueSeverity
  url : String
  kind : FetchErrorKind
  detail : String
  deriving DecidableEq, Repr

/-- `FetchError::to_issue(self, severity, issue_context)`: builds the
diagnostic record, copying `url`, `kind`, `detail` from the error. -/
def FetchError.to_issue (e : FetchError) (severity : IssueSeverity)
    (issue_context : FileSystemPath) : FetchIssue :=
  { issue_context := issue_context
    severity := severity
    url := e.url
    kind := e.kind
    detail := e.detail }

namespace Issue

/-- `impl Issue for FetchIssue`: `fn file_path` returns the stored context. -/
def file_path (i : FetchIssue) : FileSystemPath := i.issue_context

/-- `impl Issue for FetchIssue`: `fn severity` returns the stored severity. -/
def severity (i : FetchIssue) : IssueSeverity := i.severity

/-- `impl Issue for FetchIssue`: `fn title`. -/
def title (_i : FetchIssue) : String := "Error while requesting resource"

/-- `impl Issue for FetchIssue`: `fn category`. -/
def category (_i : FetchIssue) : String := "fetch"

/-- `impl Issue for FetchIssue`: `fn description` — exhaustive match over
`FetchErrorKind`, formatting with the stored url. -/
def description (i : FetchIssue) : StyledString :=
  StyledString.Text
    (match i.kind with
     | .Connect =>
         "There was an issue establishing a connection while requesting "
           ++ i.url ++ "."
     | .Status status =>
         "Received response with status " ++ toString status
           ++ " when requesting " ++ i.url
     | .Timeout => "Connection timed out when requesting " ++ i.url
     | .Other => "There was an issue requesting " ++ i.url)

/-- `impl Issue for FetchIssue`: `fn detail` returns the stored detail. -/
def detail (i : FetchIssue) : String := i.detail

end Issue

/-! Helper lemmas. -/

/-- The decode-failure type is distinct from the fetch error taxonomy:
`Utf8Error` has a single value while `FetchErrorKind` has several. -/
theorem utf8Error_ne_fetchErrorKind : Utf8Error ≠ FetchErrorKind := by
  intro h
  have e : FetchErrorKind ≃ Utf8Error := Equiv.cast h.symm
  have h2 : e FetchErrorKind.Connect = e FetchErrorKind.Timeout := by
    cases e FetchErrorKind.Connect
    cases e FetchErrorKind.Timeout
    rfl
  have h3 : FetchErrorKind.Connect = FetchErrorKind.Timeout := e.injective h2
  exact FetchErrorKind.noConfusion h3

/-! Claim theorems. -/

/-- C2: classification follows the fixed priority. A connection-establishment
failure yields `Connect` regardless of its message text, timeout flag or any
carried status; otherwise a timeout yields `Timeout` even when a status code
is also present; otherwise a carried status yields `Status(code)`; anything
else yields `Other`. -/
theorem from_reqwest_error_priority (url display : String)
    (t : Bool) (s : Option Nat) (c : Nat) :
    (FetchError.from_reqwest_error
        { is_connect := true, is_timeout := t, status := s, display := display }
        url).kind = FetchErrorKind.Connect ∧
    (FetchError.from_reqwest_error
        { is_connect := false, is_timeout := true, status := s, display := display }
        url).kind = FetchErrorKind.Timeout ∧
    (FetchError.from_reqwest_error
        { is_connect := false, is_timeout := false, status := some c, display := display }
        url).kind = FetchErrorKind.Status c ∧
    (FetchError.from_reqwest_error
        { is_connect := false, is_timeout := false, status := none, display := display }
        url).kind = FetchErrorKind.Other :=
  ⟨rfl, rfl, rfl, rfl⟩

/-- C5: `description` is a total mapping over `ErrorKind` producing exactly
the four fixed sentences, with the stored url (and status code) interpolated;
every variant of `FetchErrorKind` is covered (the match in the source is
exhaustive, and the four equations below cover all constructors). -/
theorem description_total_mapping (ctx : FileSystemPath) (sev : IssueSeverity)
    (url detail : String) (code : Nat) :
    Issue.description
        { issue_context := ctx, severity := sev, url := url,
          kind := FetchErrorKind.Connect, detail := detail }
      = StyledString.Text
          ("There was an issue establishing a connection while requesting "
            ++ url ++ ".") ∧
    Issue.description
        { issue_context := ctx, severity := sev, url := url,
          kind := FetchErrorKind.Status code, detail := detail }
      = StyledString.Text
          ("Received response with status " ++ toString code
            ++ " when requesting " ++ url) ∧
    Issue.description
        { issue_context := ctx, severity := sev, url := url,
          kind := FetchErrorKind.Timeout, detail := detail }
      = StyledString.Text ("Connection timed out when requesting " ++ url) ∧
    Issue.description
        { issue_context := ctx, severity := sev, url := url,
          kind := FetchErrorKind.Other, detail := detail }
      = StyledString.Text ("There was an issue requesting " ++ url) :=
  ⟨rfl, rfl, rfl, rfl⟩

/-- C6: for every classified error, `detail` is the raw failure's display
text verbatim, whatever the kind; and the diagnostic's `detail` accessor
returns that same string unchanged, never re-derived. -/
theorem detail_verbatim (e : reqwest.Error) (url : String)
    (sev : IssueSeverity) (ctx : FileSystemPath) :
    (FetchError.from_reqwest_error e url).detail = e.display ∧
    (FetchError.to_issue (FetchError.from_reqwest_error e url) sev ctx).detail
      = e.display ∧
    Issue.detail (FetchError.to_issue (FetchError.from_reqwest_error e url) sev ctx)
      = e.display :=
  ⟨rfl, rfl, rfl⟩

/-- C8: the diagnostic builder is deterministic and pure. In this embedding
`to_issue`, `description` and `detail` are functions of exactly the classified
error, the severity and the source context (the embedding captures every read
the Rust code performs, and the code performs no writes), so two invocations
on the same inputs produce identical records and byte-identical rendered
strings. -/
theorem to_issue_deterministic (e : FetchError) (sev : IssueSeverity)
    (ctx : FileSystemPath) :
    FetchError.to_issue e sev ctx = FetchError.to_issue e sev ctx ∧
    Issue.description (FetchError.to_issue e sev ctx)
      = Issue.description (FetchError.to_issue e sev ctx) ∧
    Issue.detail (FetchError.to_issue e sev ctx)
      = Issue.detail (FetchError.to_issue e sev ctx) ∧
    Issue.title (FetchError.to_issue e sev ctx)
      = Issue.title (FetchError.to_issue e sev ctx) ∧
    Issue.category (FetchError.to_issue e sev ctx)
      = Issue.category (FetchError.to_issue e sev ctx) ∧
    Issue.severity (FetchError.to_issue e sev ctx)
      = Issue.severity (FetchError.to_issue e sev ctx) ∧
    Issue.file_path (FetchError.to_issue e sev ctx)
      = Issue.file_path (FetchError.to_issue e sev ctx) :=
  ⟨rfl, rfl, rfl, rfl, rfl, rfl, rfl⟩

/-- C9: for every diagnostic, the title is exactly
"Error while requesting resource" and the category is exactly "fetch",
independent of the error kind, url, detail, severity or context. -/
theorem issue_title_category_fixed (i : FetchIssue) :
    Issue.title i = "Error while requesting resource" ∧
    Issue.category i = "fetch" :=
  ⟨rfl, rfl⟩

/-- C10: building a diagnostic copies the error's url, kind and detail
unchanged, stores the caller-supplied severity and source context unchanged,
and the `file_path` and `severity` accessors return exactly the supplied
context and severity. -/
theorem to_issue_frame (e : FetchError) (sev : IssueSeverity)
    (ctx : FileSystemPath) :
    (FetchError.to_issue e sev ctx).url = e.url ∧
    (FetchError.to_issue e sev ctx).kind = e.kind ∧
    (FetchError.to_issue e sev ctx).detail = e.detail ∧
    (FetchError.to_issue e sev ctx).issue_context = ctx ∧
    (FetchError.to_issue e sev ctx).severity = sev ∧
    Issue.file_path (FetchError.to_issue e sev ctx) = ctx ∧
    Issue.severity (FetchError.to_issue e sev ctx) = sev :=
  ⟨rfl, rfl, rfl, rfl, rfl, rfl, rfl⟩

/-- A transport error arising while reading the response body (for example a
connection reset mid-body): not a connect error, not a timeout, no status. -/
def bodyReadError : reqwest.Error :=
  { is_connect := false, is_timeout := false, status := none,
    display := "error decoding response body" }

/-- C1 counterexample: a transport failure while reading the response body
(`response.bytes().await?`) escapes `fetch` as a raw `reqwest::Error` through
the `?` operator (the outer `Err` of the `anyhow::Result`), not as a
classified `Failure`: the claim as stated fails for body-read failures. -/
theorem fetch_raw_body_error_counterexample :
    fetch "https://example.test/body" none
        (Except.ok { status := 200, bytes := Except.error bodyReadError })
      = Except.error bodyReadError := by
  rfl

/-- C1 (amended): a transport failure at request send time (and an HTTP error
status surfaced by `error_for_status`) is always reduced to a classified
`Failure` before leaving `fetch`; a failure while reading the response body,
however, is the one transport error propagated raw (as the outer `Err`), and
any raw error leaving `fetch` arises exactly that way. -/
theorem fetch_failure_classification (url : String) (user_agent : Option String)
    (send : Except reqwest.Error reqwest.Response) :
    (∀ e : reqwest.Error, send = Except.error e →
        fetch url user_agent send
          = Except.ok (Except.error (FetchError.from_reqwest_error e url))) ∧
    (∀ r : reqwest.Response, send = Except.ok r →
        400 ≤ r.status → r.status ≤ 599 →
        fetch url user_agent send
          = Except.ok (Except.error (FetchError.from_reqwest_error
              { is_connect := false, is_timeout := false, status := some r.status,
                display := reqwest.statusErrorText r.status } url))) ∧
    (∀ e : reqwest.Error, fetch url user_agent send = Except.error e →
        ∃ r : reqwest.Response, send = Except.ok r ∧
          ¬(400 ≤ r.status ∧ r.status ≤ 599) ∧ r.bytes = Except.error e) := by
  refine ⟨?_, ?_, ?_⟩
  · rintro e rfl
    rfl
  · rintro r rfl h4 h5
    have hm : reqwest.error_for_status r = Except.error
        { is_connect := false, is_timeout := false, status := some r.status,
          display := reqwest.statusErrorText r.status } := by
      unfold reqwest.error_for_status
      rw [if_pos ⟨h4, h5⟩]
    simp [fetch, Except.bind, hm]
  · intro e h
    cases hsend : send with
    | error e2 =>
        rw [hsend] at h
        simp [fetch, Except.bind] at h
    | ok r =>
        rw [hsend] at h
        by_cases hr : 400 ≤ r.status ∧ r.status ≤ 599
        · have hm : reqwest.error_for_status r = Except.error
              { is_connect := false, is_timeout := false, status := some r.status,
                display := reqwest.statusErrorText r.status } := by
            unfold reqwest.error_for_status
            rw [if_pos hr]
          simp [fetch, Except.bind, hm] at h
        · have hm : reqwest.error_for_status r = Except.ok r := by
            unfold reqwest.error_for_status
            rw [if_neg hr]
          cases hb : r.bytes with
          | ok body =>
              simp [fetch, Except.bind, hm, hb] at h
          | error e2 =>
              have hfe : fetch url user_agent (Except.ok r) = Except.error e2 := by
                simp [fetch, Except.bind, hm, hb]
              rw [hfe] at h
              injection h with h2
              exact ⟨r, rfl, hr, by rw [hb, h2]⟩

/-- C1 witness: the amended theorem applied at concrete inputs — a send-time
connect failure is classified, an error-status response is classified, and a
body-read failure escapes raw from a non-error-status response. -/
theorem fetch_failure_classification_witness :
    (fetch "https://unreachable.test/" none
        (Except.error { is_connect := true, is_timeout := false, status := none,
                        display := "error sending request" })
      = Except.ok (Except.error (FetchError.from_reqwest_error
          { is_connect := true, is_timeout := false, status := none,
            display := "error sending request" } "https://unreachable.test/"))) ∧
    (fetch "https://example.test/500" none
        (Except.ok { status := 500, bytes := Except.ok [] })
      = Except.ok (Except.error (FetchError.from_reqwest_error
          { is_connect := false, is_timeout := false, status := some 500,
            display := reqwest.statusErrorText 500 } "https://example.test/500"))) ∧
    (∃ r : reqwest.Response,
        (Except.ok { status := 200, bytes := Except.error bodyReadError } :
            Except reqwest.Error reqwest.Response) = Except.ok r ∧
        ¬(400 ≤ r.status ∧ r.status ≤ 599) ∧
        r.bytes = Except.error bodyReadError) :=
  ⟨(fetch_failure_classification "https://unreachable.test/" none _).1 _ rfl,
   (fetch_failure_classification "https://example.test/500" none _).2.1
      { status := 500, bytes := Except.ok [] } rfl (by decide) (by decide),
   (fetch_failure_classification "https://example.test/raw" none _).2.2
      bodyReadError rfl⟩

/-- C3 counterexample: `http::StatusCode` (used by reqwest) accepts codes up
to 999, while `error_for_status` only errors on 400..=599; a response with
status 600 — which is ≥ 400 — therefore becomes `Success`, contradicting the
claim for statuses ≥ 400. -/
theorem fetch_status600_success_counterexample :
    fetch "https://example.test/s600" none
        (Except.ok { status := 600, bytes := Except.ok [104, 105] })
      = Except.ok (Except.ok { status := 600, body := { bytes := [104, 105] } }) := by
  rfl

/-- C3 (amended): for every response whose status is in the 4xx/5xx error
range (400..=599, exactly the range `error_for_status` rejects), `fetch`
yields `Failure` with kind `Status(code)` carrying the exact numeric status
and the requested url — never `Success`. -/
theorem fetch_error_status_range_failure (url : String)
    (user_agent : Option String) (send : Except reqwest.Error reqwest.Response)
    (r : reqwest.Response) (hsend : send = Except.ok r)
    (h4 : 400 ≤ r.status) (h5 : r.status ≤ 599) :
    ∃ fe : FetchError,
      fetch url user_agent send = Except.ok (Except.error fe) ∧
      fe.kind = FetchErrorKind.Status r.status ∧ fe.url = url := by
  subst hsend
  have hm : reqwest.error_for_status r = Except.error
      { is_connect := false, is_timeout := false, status := some r.status,
        display := reqwest.statusErrorText r.status } := by
    unfold reqwest.error_for_status
    rw [if_pos ⟨h4, h5⟩]
  refine ⟨FetchError.from_reqwest_error
    { is_connect := false, is_timeout := false, status := some r.status,
      display := reqwest.statusErrorText r.status } url, ?_, rfl, rfl⟩
  simp [fetch, Except.bind, hm]

/-- C3 witness: a 404 response yields `Failure(Status(404))` with the
requested url. -/
theorem fetch_error_status_range_failure_witness :
    ∃ fe : FetchError,
      fetch "https://example.test/missing" none
          (Except.ok { status := 404, bytes := Except.ok [] })
        = Except.ok (Except.error fe) ∧
      fe.kind = FetchErrorKind.Status 404 ∧
      fe.url = "https://example.test/missing" :=
  fetch_error_status_range_failure "https://example.test/missing" none _
    { status := 404, bytes := Except.ok [] } rfl (by decide) (by decide)

/-- C4 counterexample: a response with status 999 (seen in the wild, and a
value `http::StatusCode` accepts) passes `error_for_status` and becomes
`Success`, though 999 is outside the 2xx/3xx range. -/
theorem fetch_status999_success_counterexample :
    fetch "https://example.test/s999" none
        (Except.ok { status := 999, bytes := Except.ok [] })
      = Except.ok (Except.ok { status := 999, body := { bytes := [] } }) := by
  rfl

/-- C4 (amended): every `Success` outcome of `fetch` carries a status outside
the 4xx/5xx error range (status < 400 or > 599), taken unchanged together
with the body from the transport response. The claim's "2xx or 3xx" is
narrowed only as far as the counterexample forces: statuses such as 1xx or
600..=999 also pass `error_for_status` and become `Success`. -/
theorem fetch_success_status_not_error_range (url : String)
    (user_agent : Option String) (send : Except reqwest.Error reqwest.Response)
    (resp : HttpResponse)
    (h : fetch url user_agent send = Except.ok (Except.ok resp)) :
    (resp.status < 400 ∨ 599 < resp.status) ∧
    ∃ r : reqwest.Response, send = Except.ok r ∧ resp.status = r.status ∧
      r.bytes = Except.ok resp.body.bytes := by
  cases hsend : send with
  | error e =>
      rw [hsend] at h
      simp [fetch, Except.bind] at h
  | ok r =>
      rw [hsend] at h
      by_cases hr : 400 ≤ r.status ∧ r.status ≤ 599
      · have hm : reqwest.error_for_status r = Except.error
            { is_connect := false, is_timeout := false, status := some r.status,
              display := reqwest.statusErrorText r.status } := by
          unfold reqwest.error_for_status
          rw [if_pos hr]
        simp [fetch, Except.bind, hm] at h
      · have hm : reqwest.error_for_status r = Except.ok r := by
          unfold reqwest.error_for_status
          rw [if_neg hr]
        cases hb : r.bytes with
        | error e2 =>
            simp [fetch, Except.bind, hm, hb] at h
        | ok body =>
            have hfe : fetch url user_agent (Except.ok r)
                = Except.ok (Except.ok { status := r.status, body := { bytes := body } }) := by
              simp [fetch, Except.bind, hm, hb]
            rw [hfe] at h
            injection h with h2
            injection h2 with h3
            subst h3
            constructor
            · rcases Nat.lt_or_ge r.status 400 with h1 | h1
              · exact Or.inl h1
              · right
                by_contra h2
                push_neg at h2
                exact hr ⟨h1, h2⟩
            · exact ⟨r, rfl, rfl, hb⟩

/-- C4 witness: a 200 response with body bytes `[104]` becomes `Success` with
status 200 (outside the error range) and the transport's body. -/
theorem fetch_success_status_not_error_range_witness :
    (({ status := 200, body := { bytes := [104] } } : HttpResponse).status < 400 ∨
        599 < ({ status := 200, body := { bytes := [104] } } : HttpResponse).status) ∧
    ∃ r : reqwest.Response,
      (Except.ok { status := 200, bytes := Except.ok [104] } :
          Except reqwest.Error reqwest.Response) = Except.ok r ∧
      ({ status := 200, body := { bytes := [104] } } : HttpResponse).status = r.status ∧
      r.bytes = Except.ok
        ({ status := 200, body := { bytes := [104] } } : HttpResponse).body.bytes :=
  fetch_success_status_not_error_range "https://example.test/ok" none
    (Except.ok { status := 200, bytes := Except.ok [104] })
    { status := 200, body := { bytes := [104] } } rfl

/-- C7: a body whose bytes are valid UTF-8 converts to its string view, and
re-encoding that view (Rust's `str::as_bytes` — `&str` is a byte slice)
yields exactly the original bytes; a body with invalid UTF-8 fails with a
`Utf8Error`, a type distinct from `FetchErrorKind`. -/
theorem body_to_string_roundtrip (b : HttpResponseBody) :
    (validUtf8 b.bytes = true →
        ∃ s : Utf8View, b.to_string = Except.ok s ∧ s.as_bytes = b.bytes) ∧
    (validUtf8 b.bytes = false →
        b.to_string = Except.error Utf8Error.invalid ∧
        Utf8Error ≠ FetchErrorKind) := by
  constructor
  · intro h
    refine ⟨⟨b.bytes, h⟩, ?_, rfl⟩
    simp [HttpResponseBody.to_string, h]
  · intro h
    refine ⟨?_, utf8Error_ne_fetchErrorKind⟩
    simp [HttpResponseBody.to_string, h]

/-- C7 witness: the ASCII body "hello" round-trips through its string view;
the body `[255]` is rejected with a decode error. -/
theorem body_to_string_roundtrip_witness :
    (∃ s : Utf8View,
        HttpResponseBody.to_string { bytes := [104, 101, 108, 108, 111] }
          = Except.ok s ∧ s.as_bytes = [104, 101, 108, 108, 111]) ∧
    (HttpResponseBody.to_string { bytes := [255] }
        = Except.error Utf8Error.invalid ∧
      Utf8Error ≠ FetchErrorKind) :=
  ⟨(body_to_string_roundtrip { bytes := [104, 101, 108, 108, 111] }).1 (by decide),
   (body_to_string_roundtrip { bytes := [255] }).2 (by decide)⟩
